import Mathlib

/-!
Verification development for the query-construction and result-decoding core
of a Meilisearch client library (`src/search.rs`).

The embedding translates, from the source:
* the `urlencoding::encode` percent-encoder (byte-wise over UTF-8, unreserved
  bytes `A-Z a-z 0-9 - _ . ~` pass through, every other byte becomes `%XX`
  with uppercase hex),
* the compact JSON text that `serde_json::to_string` produces for `Vec<&str>`
  and `Vec<Vec<&str>>` (serde_json's string escaping: quote, backslash, and
  control characters below 0x20),
* the `Query` builder struct, its `new` constructor, the nine `with_*`
  setters and the `to_url` serializer,
* the `SearchResults<T>` envelope and the deserializer that serde derives for
  it (`rename_all = "camelCase"`, unknown keys ignored, `Option` fields
  defaulting to `None` when their key is missing or null).

Rust `usize` is modelled as `Nat` guarded by the `u64` range where the wire
could carry something else; decode failure is modelled as `none`; the panic
of `.unwrap()` inside `to_url` is modelled by `to_url` returning an `Option`.
-/

namespace Meili

/-! ## Percent-encoding (`urlencoding::encode`) -/

/-- Uppercase hexadecimal digit, as `urlencoding` emits for escaped bytyes
(`0`-`9` then `A`-`F`). -/
def hexUpper (n : Nat) : Char :=
  if n < 10 then Char.ofNat (48 + n) else Char.ofNat (55 + n)

/-- Bytes the `urlencoding` crate leaves unescaped:
`A-Z`, `a-z`, `0-9`, `-`, `_`, `.`, `~`. -/
def isUrlSafe (b : Nat) : Bool :=
  (65 ≤ b && b ≤ 90) || (97 ≤ b && b ≤ 122) || (48 ≤ b && b ≤ 57) ||
    b == 45 || b == 95 || b == 46 || b == 126

/-- Percent-encoding of one byte. -/
def encodeByte (b : Nat) : List Char :=
  if isUrlSafe b then [Char.ofNat b]
  else ['%', hexUpper (b / 16), hexUpper (b % 16)]

/-- UTF-8 bytes of one scalar value, as `str::as_bytes` exposes them. -/
def utf8Bytes (c : Char) : List Nat :=
  let n := c.toNat
  if n < 128 then [n]
  else if n < 2048 then [192 + n / 64, 128 + n % 64]
  else if n < 65536 then [224 + n / 4096, 128 + (n / 64) % 64, 128 + n % 64]
  else [240 + n / 262144, 128 + (n / 4096) % 64, 128 + (n / 64) % 64, 128 + n % 64]

/-- `urlencoding::encode`: percent-encode every UTF-8 byte that is not an
unreserved byte. -/
def encode (s : String) : String :=
  String.mk ((s.data.flatMap utf8Bytes).flatMap encodeByte)

/-! ## Compact JSON serialization (`serde_json::to_string`) -/

/-- Lowercase hexadecimal digit, as serde_json emits in `\u00XX` escapes. -/
def hexLower (n : Nat) : Char :=
  if n < 10 then Char.ofNat (48 + n) else Char.ofNat (87 + n)

/-- serde_json's escaping of one character inside a JSON string: `"` and `\`
get a backslash, the control characters BS HT LF FF CR get their short
escapes, the remaining characters below 0x20 become `\u00XX`, everything
else is copied verbatim. -/
def jsonEscapeChar (c : Char) : List Char :=
  if c = '"' then ['\\', '"']
  else if c = '\\' then ['\\', '\\']
  else if c.toNat = 8 then ['\\', 'b']
  else if c.toNat = 9 then ['\\', 't']
  else if c.toNat = 10 then ['\\', 'n']
  else if c.toNat = 12 then ['\\', 'f']
  else if c.toNat = 13 then ['\\', 'r']
  else if c.toNat < 32 then
    ['\\', 'u', '0', '0', hexLower (c.toNat / 16), hexLower (c.toNat % 16)]
  else [c]

/-- JSON text of a string value: escaped content between double quotes. -/
def jsonString (s : String) : String :=
  "\"" ++ String.mk (s.data.flatMap jsonEscapeChar) ++ "\""

/-- Compact JSON text of a `Vec<&str>`: comma-separated, no spaces. -/
def jsonArrayOfStrings (l : List String) : String :=
  "[" ++ String.intercalate "," (l.map jsonString) ++ "]"

/-- Compact JSON text of a `Vec<Vec<&str>>`. -/
def jsonArrayOfArrays (l : List (List String)) : String :=
  "[" ++ String.intercalate "," (l.map jsonArrayOfStrings) ++ "]"

/-- `serde_json::to_string` on a `Vec<&str>`. The `Result` error channel is
kept, but serialization writes to an in-memory buffer and the `Serialize`
impls for `str` and `Vec` never report an error, so the result is always
`ok` of the compact JSON text. -/
def serde_to_string_strs (l : List String) : Except String String :=
  .ok (jsonArrayOfStrings l)

/-- `serde_json::to_string` on a `Vec<Vec<&str>>`; always `ok`, as above. -/
def serde_to_string_strs2 (l : List (List String)) : Except String String :=
  .ok (jsonArrayOfArrays l)

/-! ## The `Query` builder -/

/-- The `Query` struct of `src/search.rs`: the mandatory query text plus nine
optional search parameters, in source declaration order. -/
structure Query where
  query : String
  offset : Option Nat
  limit : Option Nat
  filters : Option String
  facet_filters : Option (List (List String))
  facets_distribution : Option (Option (List String))
  attributes_to_retrieve : Option String
  attributes_to_crop : Option String
  crop_length : Option Nat
  attributes_to_highlight : Option String

/-- `Query::new`: every optional field starts absent. -/
def Query.new (query : String) : Query :=
  ⟨query, none, none, none, none, none, none, none, none, none⟩

def Query.with_offset (q : Query) (offset : Nat) : Query :=
  { q with offset := some offset }

def Query.with_limit (q : Query) (limit : Nat) : Query :=
  { q with limit := some limit }

def Query.with_filters (q : Query) (filters : String) : Query :=
  { q with filters := some filters }

def Query.with_facet_filters (q : Query) (facet_filters : List (List String)) : Query :=
  { q with facet_filters := some facet_filters }

def Query.with_facets_distribution (q : Query) (facets_distribution : Option (List String)) : Query :=
  { q with facets_distribution := some facets_distribution }

def Query.with_attributes_to_retrieve (q : Query) (attributes_to_retrieve : String) : Query :=
  { q with attributes_to_retrieve := some attributes_to_retrieve }

def Query.with_attributes_to_crop (q : Query) (attributes_to_crop : String) : Query :=
  { q with attributes_to_crop := some attributes_to_crop }

def Query.with_attributes_to_highlight (q : Query) (attributes_to_highlight : String) : Query :=
  { q with attributes_to_highlight := some attributes_to_highlight }

def Query.with_crop_length (q : Query) (crop_length : Nat) : Query :=
  { q with crop_length := some crop_length }

/-- One `if let Some(x) = field { url.push_str(...) }` block of `to_url`:
append the rendering of a present optional field, leave `url` alone for an
absent one. -/
def appendOpt (url : String) (v : Option α) (f : α → String) : String :=
  match v with
  | some x => url ++ f x
  | none => url

/-- `Query::to_url`. The string is built left to right exactly as the source
pushes onto `url`, one `appendOpt` per `if let Some` block, in source order;
the two `.unwrap()` calls on `serde_json::to_string` results are modelled by
threading `Option`, `none` standing for the panic. -/
def Query.to_url (q : Query) : Option String :=
  let url := "?q=" ++ encode q.query
  let url := appendOpt url q.offset (fun offset => "&offset=" ++ Nat.repr offset)
  let url := appendOpt url q.limit (fun limit => "&limit=" ++ Nat.repr limit)
  let url := appendOpt url q.filters (fun filters => "&filters=" ++ encode filters)
  (match q.facet_filters with
    | some facet_filters =>
        (serde_to_string_strs2 facet_filters).toOption.map
          (fun j => url ++ "&facetFilters=" ++ encode j)
    | none => some url).bind fun url =>
  (match q.facets_distribution with
    | some (some facets_distribution) =>
        (serde_to_string_strs facets_distribution).toOption.map
          (fun j => url ++ "&facetsDistribution=" ++ encode j)
    | some none => some (url ++ "&facetsDistribution=*")
    | none => some url).bind fun url =>
  let url := appendOpt url q.attributes_to_retrieve
    (fun a => "&attributesToRetrieve=" ++ encode a)
  let url := appendOpt url q.attributes_to_crop
    (fun a => "&attributesToCrop=" ++ encode a)
  let url := appendOpt url q.crop_length
    (fun crop_length => "&cropLength=" ++ Nat.repr crop_length)
  let url := appendOpt url q.attributes_to_highlight
    (fun a => "&attributesToHighlight=" ++ encode a)
  some url

/-! ## Per-field segments of the serialized string

Each segment is the `&name=value` pair a present field contributes, and the
empty string for an absent field; `to_url` is proved below to be the `?q=`
component followed by these segments in the fixed source order. -/

/-- The rendering (`&name=value` or empty) an optional field contributes. -/
def segOfOpt (v : Option α) (f : α → String) : String :=
  match v with
  | some x => f x
  | none => ""

def offsetSeg (q : Query) : String :=
  segOfOpt q.offset (fun offset => "&offset=" ++ Nat.repr offset)

def limitSeg (q : Query) : String :=
  segOfOpt q.limit (fun limit => "&limit=" ++ Nat.repr limit)

def filtersSeg (q : Query) : String :=
  segOfOpt q.filters (fun filters => "&filters=" ++ encode filters)

def facetFiltersSeg (q : Query) : String :=
  segOfOpt q.facet_filters
    (fun facet_filters => "&facetFilters=" ++ encode (jsonArrayOfArrays facet_filters))

def facetsDistributionSeg (q : Query) : String :=
  match q.facets_distribution with
  | some (some facets_distribution) =>
      "&facetsDistribution=" ++ encode (jsonArrayOfStrings facets_distribution)
  | some none => "&facetsDistribution=*"
  | none => ""

def attributesToRetrieveSeg (q : Query) : String :=
  segOfOpt q.attributes_to_retrieve (fun a => "&attributesToRetrieve=" ++ encode a)

def attributesToCropSeg (q : Query) : String :=
  segOfOpt q.attributes_to_crop (fun a => "&attributesToCrop=" ++ encode a)

def cropLengthSeg (q : Query) : String :=
  segOfOpt q.crop_length (fun crop_length => "&cropLength=" ++ Nat.repr crop_length)

def attributesToHighlightSeg (q : Query) : String :=
  segOfOpt q.attributes_to_highlight (fun a => "&attributesToHighlight=" ++ encode a)

/-! ## Helper lemmas -/

theorem sapp_assoc (a b c : String) : a ++ b ++ c = a ++ (b ++ c) := by
  apply String.ext
  simp [String.data_append, List.append_assoc]

theorem sapp_empty (a : String) : a ++ "" = a := by
  apply String.ext
  rw [String.data_append]
  show a.data ++ [] = a.data
  exact List.append_nil _

theorem sapp_empty_left (a : String) : "" ++ a = a := by
  apply String.ext
  rw [String.data_append]
  rfl

theorem appendOpt_eq (url : String) (v : Option α) (f : α → String) :
    appendOpt url v f = url ++ segOfOpt v f := by
  cases v
  · exact (sapp_empty url).symm
  · rfl

/-- `to_url` never panics and equals the `?q=` component followed by the
nine per-field segments in the fixed source order. -/
theorem to_url_eq (q : Query) :
    q.to_url = some ("?q=" ++ encode q.query ++ offsetSeg q ++ limitSeg q ++
      filtersSeg q ++ facetFiltersSeg q ++ facetsDistributionSeg q ++
      attributesToRetrieveSeg q ++ attributesToCropSeg q ++ cropLengthSeg q ++
      attributesToHighlightSeg q) := by
  rcases hff : q.facet_filters with _ | ff <;>
    rcases hfd : q.facets_distribution with _ | (_ | fd) <;>
  simp only [Query.to_url, offsetSeg, limitSeg, filtersSeg, facetFiltersSeg,
    facetsDistributionSeg, attributesToRetrieveSeg, attributesToCropSeg,
    cropLengthSeg, attributesToHighlightSeg, appendOpt_eq, hff, hfd,
    serde_to_string_strs, serde_to_string_strs2, Except.toOption,
    Option.map_some, Option.map_some', Option.some_bind, segOfOpt, Option.some.injEq,
    sapp_assoc, sapp_empty, sapp_empty_left]

/-! ## The `SearchResults<T>` envelope and its derived deserializer

JSON values are modelled with rational numbers standing for the decimal
numeric literals of the wire; an object is the ordered list of its key/value
pairs. serde's derived `Deserialize` (with `rename_all = "camelCase"`) reads
each struct field from its camelCase key: a missing or undecodable required
key is an error, a missing or `null` `Option` key decodes to `none`, and
keys that name no struct field are ignored. Duplicate keys are resolved to
the first occurrence here. `usize` accepts exactly the integral values in
the `u64` range (serde_json parses larger or fractional literals as floats,
which `usize` then rejects, and negative literals as signed, also
rejected). -/

inductive Json where
  | null
  | bool (b : Bool)
  | num (q : Rat)
  | str (s : String)
  | arr (elems : List Json)
  | obj (fields : List (String × Json))

/-- The `SearchResults<T>` struct, fields in source declaration order; the
two `HashMap`s are modelled as association lists. -/
structure SearchResults (T : Type) where
  hits : List T
  offset : Nat
  limit : Nat
  nb_hits : Nat
  exhaustive_nb_hits : Bool
  facets_distribution : Option (List (String × List (String × Nat)))
  exhaustive_facets_count : Option Bool
  processing_time_ms : Nat
  query : String

/-- First value stored under a key of a JSON object. -/
def lookupField (fields : List (String × Json)) (name : String) : Option Json :=
  match fields with
  | [] => none
  | (k, v) :: rest => if k = name then some v else lookupField rest name

/-- Deserializing a `usize` from a JSON value: an integral, non-negative
number in the `u64` range; anything else is a type error. -/
def decodeUsize (j : Json) : Option Nat :=
  match j with
  | .num q => if q.den = 1 ∧ 0 ≤ q.num ∧ q.num < 2 ^ 64 then some q.num.toNat else none
  | _ => none

def decodeBool (j : Json) : Option Bool :=
  match j with
  | .bool b => some b
  | _ => none

def decodeString (j : Json) : Option String :=
  match j with
  | .str s => some s
  | _ => none

/-- Deserializing `Vec<T>` from a JSON array: each element independently
as `T`, failing if any element fails. -/
def decodeElems (d : Json → Option T) : List Json → Option (List T)
  | [] => some []
  | x :: xs => (d x).bind fun t => (decodeElems d xs).map fun ts => t :: ts

def decodeVec (d : Json → Option T) (j : Json) : Option (List T) :=
  match j with
  | .arr elems => decodeElems d elems
  | _ => none

/-- Deserializing `HashMap<String, usize>` from a JSON object. -/
def decodeCounts : List (String × Json) → Option (List (String × Nat))
  | [] => some []
  | (k, v) :: rest =>
      (decodeUsize v).bind fun n => (decodeCounts rest).map fun r => (k, n) :: r

def decodeCountMap (j : Json) : Option (List (String × Nat)) :=
  match j with
  | .obj fields => decodeCounts fields
  | _ => none

/-- Deserializing `HashMap<String, HashMap<String, usize>>`. -/
def decodeFacetMaps : List (String × Json) → Option (List (String × List (String × Nat)))
  | [] => some []
  | (k, v) :: rest =>
      (decodeCountMap v).bind fun m => (decodeFacetMaps rest).map fun r => (k, m) :: r

def decodeFacets (j : Json) : Option (List (String × List (String × Nat))) :=
  match j with
  | .obj fields => decodeFacetMaps fields
  | _ => none

/-- A required struct field: its key must be present and decode. -/
def reqField (d : Json → Option α) (fields : List (String × Json)) (name : String) :
    Option α :=
  (lookupField fields name).bind d

/-- An `Option` struct field: a missing or `null` key is `none`, a present
value must decode. -/
def optField (d : Json → Option α) (fields : List (String × Json)) (name : String) :
    Option (Option α) :=
  match lookupField fields name with
  | none => some none
  | some .null => some none
  | some j => (d j).map some

/-- The derived `Deserialize` for `SearchResults<T>`, generic over the
document decoder `dT`, reading the camelCase keys. -/
def decodeSearchResults (dT : Json → Option T) (j : Json) : Option (SearchResults T) :=
  match j with
  | .obj fields =>
      (reqField (decodeVec dT) fields "hits").bind fun hits =>
      (reqField decodeUsize fields "offset").bind fun offset =>
      (reqField decodeUsize fields "limit").bind fun limit =>
      (reqField decodeUsize fields "nbHits").bind fun nb_hits =>
      (reqField decodeBool fields "exhaustiveNbHits").bind fun exhaustive_nb_hits =>
      (optField decodeFacets fields "facetsDistribution").bind fun facets_distribution =>
      (optField decodeBool fields "exhaustiveFacetsCount").bind fun exhaustive_facets_count =>
      (reqField decodeUsize fields "processingTimeMs").bind fun processing_time_ms =>
      (reqField decodeString fields "query").map fun query =>
      ⟨hits, offset, limit, nb_hits, exhaustive_nb_hits, facets_distribution,
        exhaustive_facets_count, processing_time_ms, query⟩
  | _ => none

/-! ## Sample response data and decoder helpers -/

/-- The spec's sample response body: all required keys, no optional keys. -/
def sampleFields : List (String × Json) :=
  [("hits", Json.arr []), ("offset", Json.num 0), ("limit", Json.num 20),
   ("nbHits", Json.num 0), ("exhaustiveNbHits", Json.bool true),
   ("processingTimeMs", Json.num 1), ("query", Json.str "x")]

/-- The object with one key removed. -/
def dropField (fields : List (String × Json)) (name : String) : List (String × Json) :=
  fields.filter fun p => p.1 != name

theorem obind_none {α β : Type} {a : Option α} {f : α → Option β}
    (h : ∀ x, f x = none) : a.bind f = none := by
  cases a <;> simp [h]

theorem decodeUsize_num_none {r : Rat} (h : r.num < 0 ∨ r.den ≠ 1) :
    decodeUsize (.num r) = none := by
  simp only [decodeUsize]
  rw [if_neg]
  rintro ⟨h1, h2, -⟩
  rcases h with h | h
  · omega
  · exact h h1

/-! ## One value per `with_*` setter, for the algebraic claims -/

/-- A single `with_*` call together with its argument. -/
inductive Setter where
  | offset (n : Nat)
  | limit (n : Nat)
  | filters (s : String)
  | facetFilters (v : List (List String))
  | facetsDistribution (v : Option (List String))
  | attributesToRetrieve (s : String)
  | attributesToCrop (s : String)
  | cropLength (n : Nat)
  | attributesToHighlight (s : String)

/-- Perform the `with_*` call a `Setter` stands for. -/
def Setter.apply : Setter → Query → Query
  | .offset n, q => q.with_offset n
  | .limit n, q => q.with_limit n
  | .filters s, q => q.with_filters s
  | .facetFilters v, q => q.with_facet_filters v
  | .facetsDistribution v, q => q.with_facets_distribution v
  | .attributesToRetrieve s, q => q.with_attributes_to_retrieve s
  | .attributesToCrop s, q => q.with_attributes_to_crop s
  | .cropLength n, q => q.with_crop_length n
  | .attributesToHighlight s, q => q.with_attributes_to_highlight s

/-- Which of the nine optional fields a `Setter` writes. -/
def Setter.fieldIdx : Setter → Nat
  | .offset _ => 0
  | .limit _ => 1
  | .filters _ => 2
  | .facetFilters _ => 3
  | .facetsDistribution _ => 4
  | .attributesToRetrieve _ => 5
  | .attributesToCrop _ => 6
  | .cropLength _ => 7
  | .attributesToHighlight _ => 8

/-! ## The claims -/

/-- Claim C1: for every builder state the serialized query string is the
`?q=` component followed by one `&name=value` segment per present optional
field, in the fixed order offset, limit, filters, facetFilters,
facetsDistribution, attributesToRetrieve, attributesToCrop, cropLength,
attributesToHighlight (absent fields contribute the empty segment); a
present-but-empty facet_filters list is still emitted, as
`facetFilters=%5B%5D`; and the builder made from query text `space` with
offset 42 and limit 21 serializes to exactly `?q=space&offset=42&limit=21`. -/
theorem claim_C1 :
    (∀ q : Query, q.to_url = some ("?q=" ++ encode q.query ++ offsetSeg q ++
      limitSeg q ++ filtersSeg q ++ facetFiltersSeg q ++ facetsDistributionSeg q ++
      attributesToRetrieveSeg q ++ attributesToCropSeg q ++ cropLengthSeg q ++
      attributesToHighlightSeg q))
    ∧ (∀ q : Query, facetFiltersSeg (q.with_facet_filters []) = "&facetFilters=%5B%5D")
    ∧ (((Query.new "space").with_offset 42).with_limit 21).to_url =
        some "?q=space&offset=42&limit=21" :=
  ⟨to_url_eq, fun _ => rfl, by decide⟩

/-- Claim C2: serializing with facets_distribution in the wildcard state
renders the value as the literal unencoded `*`, while the explicitly empty
list renders as the percent-encoded JSON array `%5B%5D`; the two
serializations are distinct. -/
theorem claim_C2 :
    (∀ q : Query,
      facetsDistributionSeg (q.with_facets_distribution none) = "&facetsDistribution=*"
      ∧ facetsDistributionSeg (q.with_facets_distribution (some [])) =
          "&facetsDistribution=%5B%5D")
    ∧ ((Query.new "x").with_facets_distribution none).to_url =
        some "?q=x&facetsDistribution=*"
    ∧ ((Query.new "x").with_facets_distribution (some [])).to_url =
        some "?q=x&facetsDistribution=%5B%5D"
    ∧ ((Query.new "x").with_facets_distribution none).to_url ≠
        ((Query.new "x").with_facets_distribution (some [])).to_url :=
  ⟨fun _ => ⟨rfl, rfl⟩, by decide, by decide, by decide⟩

/-- Claim C3: for every builder, the empty query text included and whatever
optional fields are set, the serialized string begins with `?q=` immediately
followed by the percent-encoded query text. -/
theorem claim_C3 :
    (∀ q : Query, ∃ rest : String,
      q.to_url = some ("?q=" ++ encode q.query ++ rest))
    ∧ encode "" = ""
    ∧ (Query.new "").to_url = some "?q=" := by
  refine ⟨fun q => ⟨offsetSeg q ++ (limitSeg q ++ (filtersSeg q ++
    (facetFiltersSeg q ++ (facetsDistributionSeg q ++ (attributesToRetrieveSeg q ++
    (attributesToCropSeg q ++ (cropLengthSeg q ++ attributesToHighlightSeg q))))))),
    ?_⟩, by decide, by decide⟩
  rw [to_url_eq]
  simp only [sapp_assoc]

/-- Claim C4: the JSON object with hits `[]`, offset 0, limit 20, nbHits 0,
exhaustiveNbHits true, processingTimeMs 1, query `x` decodes, for every
document type, to the envelope with an empty hits list, those scalar values,
and absent facets_distribution and exhaustive_facets_count; an unknown extra
key is ignored. -/
theorem claim_C4 : ∀ (T : Type) (dT : Json → Option T),
    decodeSearchResults dT (Json.obj sampleFields) =
      some ⟨[], 0, 20, 0, true, none, none, 1, "x"⟩
    ∧ decodeSearchResults dT
        (Json.obj (("unknownExtraField", Json.str "ignored") :: sampleFields)) =
      some ⟨[], 0, 20, 0, true, none, none, 1, "x"⟩ :=
  fun _ _ => ⟨rfl, rfl⟩

/-- Claim C5: removing any one of the seven required keys from the sample
object makes decoding fail, for every document type, while the absence of
the optional keys facetsDistribution and exhaustiveFacetsCount still decodes
successfully with those fields absent. -/
theorem claim_C5 : ∀ (T : Type) (dT : Json → Option T),
    decodeSearchResults dT (Json.obj (dropField sampleFields "hits")) = none
    ∧ decodeSearchResults dT (Json.obj (dropField sampleFields "offset")) = none
    ∧ decodeSearchResults dT (Json.obj (dropField sampleFields "limit")) = none
    ∧ decodeSearchResults dT (Json.obj (dropField sampleFields "nbHits")) = none
    ∧ decodeSearchResults dT (Json.obj (dropField sampleFields "exhaustiveNbHits")) = none
    ∧ decodeSearchResults dT (Json.obj (dropField sampleFields "processingTimeMs")) = none
    ∧ decodeSearchResults dT (Json.obj (dropField sampleFields "query")) = none
    ∧ decodeSearchResults dT (Json.obj sampleFields) =
        some ⟨[], 0, 20, 0, true, none, none, 1, "x"⟩ :=
  fun _ _ => ⟨rfl, rfl, rfl, rfl, rfl, rfl, rfl, rfl⟩

/-- Claim C6: applying the same setter twice, with possibly different
values, serializes exactly as applying only the second call
(last-write-wins). -/
theorem claim_C6 : ∀ (s t : Setter) (q : Query), s.fieldIdx = t.fieldIdx →
    (t.apply (s.apply q)).to_url = (t.apply q).to_url := by
  intro s t q h
  cases s <;> cases t <;> simp [Setter.fieldIdx] at h <;> rfl

/-- Witness for C6 at two offset writes. -/
theorem claim_C6_witness :
    ((Setter.offset 2).apply ((Setter.offset 1).apply (Query.new "a"))).to_url =
      ((Setter.offset 2).apply (Query.new "a")).to_url :=
  claim_C6 (.offset 1) (.offset 2) (Query.new "a") rfl

/-- Claim C7: two setters on distinct fields commute: applying them in
either order yields builders with the same serialization. -/
theorem claim_C7 : ∀ (s t : Setter) (q : Query), s.fieldIdx ≠ t.fieldIdx →
    (t.apply (s.apply q)).to_url = (s.apply (t.apply q)).to_url := by
  intro s t q h
  cases s <;> cases t <;> simp [Setter.fieldIdx] at h <;> rfl

/-- Witness for C7 at an offset write against a limit write. -/
theorem claim_C7_witness :
    ((Setter.limit 2).apply ((Setter.offset 1).apply (Query.new "a"))).to_url =
      ((Setter.offset 1).apply ((Setter.limit 2).apply (Query.new "a"))).to_url :=
  claim_C7 (.offset 1) (.limit 2) (Query.new "a") (by decide)

/-- Claim C8: `new` yields a builder with every optional field absent, and
each `with_*` operation returns a builder identical to its input except the
one field it sets, which becomes present with the supplied value. -/
theorem claim_C8 :
    (∀ s : String, Query.new s =
      ⟨s, none, none, none, none, none, none, none, none, none⟩)
    ∧ (∀ (q : Query) (v : Nat), q.with_offset v =
      ⟨q.query, some v, q.limit, q.filters, q.facet_filters, q.facets_distribution,
        q.attributes_to_retrieve, q.attributes_to_crop, q.crop_length,
        q.attributes_to_highlight⟩)
    ∧ (∀ (q : Query) (v : Nat), q.with_limit v =
      ⟨q.query, q.offset, some v, q.filters, q.facet_filters, q.facets_distribution,
        q.attributes_to_retrieve, q.attributes_to_crop, q.crop_length,
        q.attributes_to_highlight⟩)
    ∧ (∀ (q : Query) (v : String), q.with_filters v =
      ⟨q.query, q.offset, q.limit, some v, q.facet_filters, q.facets_distribution,
        q.attributes_to_retrieve, q.attributes_to_crop, q.crop_length,
        q.attributes_to_highlight⟩)
    ∧ (∀ (q : Query) (v : List (List String)), q.with_facet_filters v =
      ⟨q.query, q.offset, q.limit, q.filters, some v, q.facets_distribution,
        q.attributes_to_retrieve, q.attributes_to_crop, q.crop_length,
        q.attributes_to_highlight⟩)
    ∧ (∀ (q : Query) (v : Option (List String)), q.with_facets_distribution v =
      ⟨q.query, q.offset, q.limit, q.filters, q.facet_filters, some v,
        q.attributes_to_retrieve, q.attributes_to_crop, q.crop_length,
        q.attributes_to_highlight⟩)
    ∧ (∀ (q : Query) (v : String), q.with_attributes_to_retrieve v =
      ⟨q.query, q.offset, q.limit, q.filters, q.facet_filters, q.facets_distribution,
        some v, q.attributes_to_crop, q.crop_length, q.attributes_to_highlight⟩)
    ∧ (∀ (q : Query) (v : String), q.with_attributes_to_crop v =
      ⟨q.query, q.offset, q.limit, q.filters, q.facet_filters, q.facets_distribution,
        q.attributes_to_retrieve, some v, q.crop_length, q.attributes_to_highlight⟩)
    ∧ (∀ (q : Query) (v : Nat), q.with_crop_length v =
      ⟨q.query, q.offset, q.limit, q.filters, q.facet_filters, q.facets_distribution,
        q.attributes_to_retrieve, q.attributes_to_crop, some v,
        q.attributes_to_highlight⟩)
    ∧ (∀ (q : Query) (v : String), q.with_attributes_to_highlight v =
      ⟨q.query, q.offset, q.limit, q.filters, q.facet_filters, q.facets_distribution,
        q.attributes_to_retrieve, q.attributes_to_crop, q.crop_length, some v⟩) :=
  ⟨fun _ => rfl, fun _ _ => rfl, fun _ _ => rfl, fun _ _ => rfl, fun _ _ => rfl,
    fun _ _ => rfl, fun _ _ => rfl, fun _ _ => rfl, fun _ _ => rfl, fun _ _ => rfl⟩

/-- Claim C9: serialization is total: the JSON serialization steps inside
`to_url` always return `ok`, so the panic behind each unwrap is unreachable
and `to_url` always produces a string. -/
theorem claim_C9 :
    (∀ q : Query, ∃ s : String, q.to_url = some s)
    ∧ (∀ ff : List (List String), serde_to_string_strs2 ff = .ok (jsonArrayOfArrays ff))
    ∧ (∀ fd : List String, serde_to_string_strs fd = .ok (jsonArrayOfStrings fd)) :=
  ⟨fun q => ⟨_, to_url_eq q⟩, fun _ => rfl, fun _ => rfl⟩

/-- Claim C10: decoding fails whenever the value under any of the numeric
keys offset, limit, nbHits or processingTimeMs is a negative or non-integral
number, since the envelope declares them as unsigned integers. -/
theorem claim_C10 : ∀ (T : Type) (dT : Json → Option T)
    (fields : List (String × Json)) (r : Rat), r.num < 0 ∨ r.den ≠ 1 →
    (lookupField fields "offset" = some (.num r) →
      decodeSearchResults dT (.obj fields) = none)
    ∧ (lookupField fields "limit" = some (.num r) →
      decodeSearchResults dT (.obj fields) = none)
    ∧ (lookupField fields "nbHits" = some (.num r) →
      decodeSearchResults dT (.obj fields) = none)
    ∧ (lookupField fields "processingTimeMs" = some (.num r) →
      decodeSearchResults dT (.obj fields) = none) := by
  intro T dT fields r hr
  have hbad : decodeUsize (.num r) = none := decodeUsize_num_none hr
  refine ⟨fun hl => ?_, fun hl => ?_, fun hl => ?_, fun hl => ?_⟩ <;>
    simp only [decodeSearchResults]
  · apply obind_none; intro _
    simp [reqField, hl, hbad]
  · apply obind_none; intro _
    apply obind_none; intro _
    simp [reqField, hl, hbad]
  · apply obind_none; intro _
    apply obind_none; intro _
    apply obind_none; intro _
    simp [reqField, hl, hbad]
  · apply obind_none; intro _
    apply obind_none; intro _
    apply obind_none; intro _
    apply obind_none; intro _
    apply obind_none; intro _
    apply obind_none; intro _
    apply obind_none; intro _
    simp [reqField, hl, hbad]

/-- Witness for C10: a sample body whose offset is the negative number -5
fails to decode. -/
theorem claim_C10_witness :
    decodeSearchResults (fun j => some j)
      (Json.obj [("hits", Json.arr []), ("offset", Json.num (-5)),
        ("limit", Json.num 20), ("nbHits", Json.num 0),
        ("exhaustiveNbHits", Json.bool true), ("processingTimeMs", Json.num 1),
        ("query", Json.str "x")]) = none :=
  (claim_C10 Json (fun j => some j)
    [("hits", Json.arr []), ("offset", Json.num (-5)),
      ("limit", Json.num 20), ("nbHits", Json.num 0),
      ("exhaustiveNbHits", Json.bool true), ("processingTimeMs", Json.num 1),
      ("query", Json.str "x")] (-5) (by decide)).1 rfl

end Meili
